import Mathlib

/-!
Verification of the XFG burn/mint STARK layer (`burn_mint_prover.rs`,
`burn_mint_verifier.rs`, `burn_mint_air.rs`) against its natural-language
specification.

The development shallowly embeds the Rust source:
* bytes are `Nat` values below 256, byte strings are `List Nat`;
* the Winterfell `f64` base field (Goldilocks, `p = 2^64 - 2^32 + 1`) is
  embedded as `Fin p`;
* the `sha3` crate's Keccak-256 is implemented concretely (validated below
  against the empty-string digest and the digest checked in the repository's
  own `lib.rs` test);
* fallible Rust functions return `Except XfgStarkError _`; a Rust runtime
  panic is an explicit `RustOutcome.panicked` value.
-/

namespace XfgStark

/-! ## Keccak-256 (model of the `sha3` crate's `Keccak256`) -/

/-- Left rotation of a 64-bit lane represented as a `Nat`. -/
def rotl64 (n r : Nat) : Nat :=
  ((n <<< r) ||| (n >>> (64 - r))) % (2 ^ 64)

/-- Bitwise complement of a 64-bit lane. -/
def not64 (n : Nat) : Nat := n ^^^ (2 ^ 64 - 1)

/-- Round constants of Keccak-f[1600]. -/
def keccakRC : List Nat :=
  [0x0000000000000001, 0x0000000000008082, 0x800000000000808a, 0x8000000080008000,
   0x000000000000808b, 0x0000000080000001, 0x8000000080008081, 0x8000000000008009,
   0x000000000000008a, 0x0000000000000088, 0x0000000080008009, 0x000000008000000a,
   0x000000008000808b, 0x800000000000008b, 0x8000000000008089, 0x8000000000008003,
   0x8000000000008002, 0x8000000000000080, 0x000000000000800a, 0x800000008000000a,
   0x8000000080008081, 0x8000000000008080, 0x0000000080000001, 0x8000000080008008]

/-- One round of Keccak-f[1600] on a 25-lane state; lane (x, y) sits at
index x + 5 * y. -/
def keccakRound (st : List Nat) (rc : Nat) : List Nat :=
  let a := fun i => st.getD i 0
  let c := fun x => a x ^^^ a (x + 5) ^^^ a (x + 10) ^^^ a (x + 15) ^^^ a (x + 20)
  let c0 := c 0
  let c1 := c 1
  let c2 := c 2
  let c3 := c 3
  let c4 := c 4
  let d0 := c4 ^^^ rotl64 c1 1
  let d1 := c0 ^^^ rotl64 c2 1
  let d2 := c1 ^^^ rotl64 c3 1
  let d3 := c2 ^^^ rotl64 c4 1
  let d4 := c3 ^^^ rotl64 c0 1
  let t := fun i =>
    (if i % 5 = 0 then a i ^^^ d0
     else if i % 5 = 1 then a i ^^^ d1
     else if i % 5 = 2 then a i ^^^ d2
     else if i % 5 = 3 then a i ^^^ d3
     else a i ^^^ d4)
  let b00 := t 0
  let b01 := rotl64 (t 6) 44
  let b02 := rotl64 (t 12) 43
  let b03 := rotl64 (t 18) 21
  let b04 := rotl64 (t 24) 14
  let b05 := rotl64 (t 3) 28
  let b06 := rotl64 (t 9) 20
  let b07 := rotl64 (t 10) 3
  let b08 := rotl64 (t 16) 45
  let b09 := rotl64 (t 22) 61
  let b10 := rotl64 (t 1) 1
  let b11 := rotl64 (t 7) 6
  let b12 := rotl64 (t 13) 25
  let b13 := rotl64 (t 19) 8
  let b14 := rotl64 (t 20) 18
  let b15 := rotl64 (t 4) 27
  let b16 := rotl64 (t 5) 36
  let b17 := rotl64 (t 11) 10
  let b18 := rotl64 (t 17) 15
  let b19 := rotl64 (t 23) 56
  let b20 := rotl64 (t 2) 62
  let b21 := rotl64 (t 8) 55
  let b22 := rotl64 (t 14) 39
  let b23 := rotl64 (t 15) 41
  let b24 := rotl64 (t 21) 2
  [ (b00 ^^^ (not64 b01 &&& b02)) ^^^ rc,
    b01 ^^^ (not64 b02 &&& b03),
    b02 ^^^ (not64 b03 &&& b04),
    b03 ^^^ (not64 b04 &&& b00),
    b04 ^^^ (not64 b00 &&& b01),
    b05 ^^^ (not64 b06 &&& b07),
    b06 ^^^ (not64 b07 &&& b08),
    b07 ^^^ (not64 b08 &&& b09),
    b08 ^^^ (not64 b09 &&& b05),
    b09 ^^^ (not64 b05 &&& b06),
    b10 ^^^ (not64 b11 &&& b12),
    b11 ^^^ (not64 b12 &&& b13),
    b12 ^^^ (not64 b13 &&& b14),
    b13 ^^^ (not64 b14 &&& b10),
    b14 ^^^ (not64 b10 &&& b11),
    b15 ^^^ (not64 b16 &&& b17),
    b16 ^^^ (not64 b17 &&& b18),
    b17 ^^^ (not64 b18 &&& b19),
    b18 ^^^ (not64 b19 &&& b15),
    b19 ^^^ (not64 b15 &&& b16),
    b20 ^^^ (not64 b21 &&& b22),
    b21 ^^^ (not64 b22 &&& b23),
    b22 ^^^ (not64 b23 &&& b24),
    b23 ^^^ (not64 b24 &&& b20),
    b24 ^^^ (not64 b20 &&& b21) ]

/-- The Keccak-f[1600] permutation: 24 rounds. -/
def keccakF (st : List Nat) : List Nat :=
  keccakRC.foldl keccakRound st

/-- Little-endian interpretation of a byte list as one lane. -/
def laneOfBytes (bs : List Nat) : Nat :=
  bs.foldr (fun b acc => acc * 256 + b) 0

/-- The 17 lanes of one 136-byte rate block. -/
def lanesOfBlock (block : List Nat) : List Nat :=
  (List.range 17).map (fun i => laneOfBytes ((block.drop (8 * i)).take 8))

/-- Serialization of a lane into 8 little-endian bytes. -/
def bytesOfLane (n : Nat) : List Nat :=
  [n % 256, n / 2 ^ 8 % 256, n / 2 ^ 16 % 256, n / 2 ^ 24 % 256,
   n / 2 ^ 32 % 256, n / 2 ^ 40 % 256, n / 2 ^ 48 % 256, n / 2 ^ 56 % 256]

/-- Keccak pad10*1 with the 0x01 domain byte (legacy Keccak-256, as in the
`sha3` crate's `Keccak256`), rate 136. -/
def keccakPad (msg : List Nat) : List Nat :=
  let r := 136
  let padLen := r - msg.length % r
  if padLen = 1 then msg ++ [0x81]
  else msg ++ [0x01] ++ List.replicate (padLen - 2) 0 ++ [0x80]

/-- Absorption of one 136-byte rate block into the state. -/
def absorbBlock (st : List Nat) (block : List Nat) : List Nat :=
  keccakF (List.zipWith (fun s b => s ^^^ b) st (lanesOfBlock block ++ List.replicate 8 0))

/-- Absorption of the given number of rate blocks of the padded message. -/
def absorbN : Nat → List Nat → List Nat → List Nat
  | 0, st, _ => st
  | n + 1, st, rest => absorbN n (absorbBlock st (rest.take 136)) (rest.drop 136)

/-- Keccak-256 of a byte list: the 32-byte digest. -/
def keccak256 (msg : List Nat) : List Nat :=
  let padded := keccakPad msg
  let st := absorbN (padded.length / 136) (List.replicate 25 0) padded
  (st.take 4).flatMap bytesOfLane

/-! ## Base field (Winterfell `f64`, Goldilocks) -/

/-- Modulus of Winterfell's `f64` base field. -/
def pGoldilocks : Nat := 2 ^ 64 - 2 ^ 32 + 1

theorem pGoldilocks_pos : 0 < pGoldilocks := by decide

/-- Field elements of the Winterfell `f64` base field. -/
abbrev BaseElement := Fin pGoldilocks

/-- Canonical embedding of a `Nat` into the base field. -/
def felt (n : Nat) : BaseElement := ⟨n % pGoldilocks, Nat.mod_lt n pGoldilocks_pos⟩

/-- Model of Rust `BaseElement::from(x as u32)`: truncate to 32 bits, embed. -/
def fromU32 (n : Nat) : BaseElement := felt (n % 2 ^ 32)

/-- Model of `u64::to_le_bytes` applied to `BaseElement::as_int()`:
the 8 little-endian bytes of the canonical value. -/
def le64 (n : Nat) : List Nat := bytesOfLane n

/-- Little-endian `u32` read from four consecutive bytes of a byte string
(Rust `u32::from_le_bytes([bs[off], bs[off+1], bs[off+2], bs[off+3]])`). -/
def u32le (bs : List Nat) (off : Nat) : Nat :=
  bs.getD off 0 + 2 ^ 8 * bs.getD (off + 1) 0 +
    2 ^ 16 * bs.getD (off + 2) 0 + 2 ^ 24 * bs.getD (off + 3) 0

/-- First four digest bytes read as a little-endian `u32`
(Rust `u32::from_le_bytes([hash[0], hash[1], hash[2], hash[3]])`). -/
def first4LE (bs : List Nat) : Nat := u32le bs 0

/-! ## Domain tags (ASCII byte strings from the source) -/

/-- ASCII bytes of the tag `nullifier`. -/
def nullifierTag : List Nat := [110, 117, 108, 108, 105, 102, 105, 101, 114]

/-- ASCII bytes of the tag `recipient`. -/
def recipientTag : List Nat := [114, 101, 99, 105, 112, 105, 101, 110, 116]

/-- ASCII bytes of the tag `ethereum-recipient`. -/
def ethereumRecipientTag : List Nat :=
  [101, 116, 104, 101, 114, 101, 117, 109, 45, 114, 101, 99, 105, 112, 105, 101, 110, 116]

/-- ASCII bytes of the tag `fuego-to-heat-bridge`. -/
def fuegoBridgeTag : List Nat :=
  [102, 117, 101, 103, 111, 45, 116, 111, 45, 104, 101, 97, 116, 45, 98, 114, 105, 100, 103, 101]

/-- ASCII bytes of the tag `heat-commitment-v1`. -/
def heatCommitmentTag : List Nat :=
  [104, 101, 97, 116, 45, 99, 111, 109, 109, 105, 116, 109, 101, 110, 116, 45, 118, 49]

end XfgStark

namespace XfgStark

/-! ## Error surface (`XfgStarkError` in `src/lib.rs`)

Variants whose Rust payloads are foreign library types (`field::FieldError`,
`bincode::Error`, ...) carry an opaque `String` here; the burn/mint modules
under verification only ever construct `CryptoError`. -/

/-- Error enum of the crate (`src/lib.rs`, lines 65-110). -/
inductive XfgStarkError where
  | FieldError (payload : String)
  | PolynomialError (payload : String)
  | StarkError (payload : String)
  | TypeError (payload : String)
  | SerializationError (payload : String)
  | JsonError (payload : String)
  | IoError (payload : String)
  | ParseError (payload : String)
  | AnyhowError (payload : String)
  | BoxError (payload : String)
  | CryptoError (msg : String)
  deriving DecidableEq

/-- Constructor tag of an error, used to state that two errors are the same
variant of the enum. -/
def XfgStarkError.variantTag : XfgStarkError → Nat
  | .FieldError _ => 0
  | .PolynomialError _ => 1
  | .StarkError _ => 2
  | .TypeError _ => 3
  | .SerializationError _ => 4
  | .JsonError _ => 5
  | .IoError _ => 6
  | .ParseError _ => 7
  | .AnyhowError _ => 8
  | .BoxError _ => 9
  | .CryptoError _ => 10

/-- Outcome of a Rust call that may also abort with a runtime panic. -/
inductive RustOutcome (α : Type) where
  | ok (a : α)
  | err (e : XfgStarkError)
  | panicked
  deriving DecidableEq

/-! ## Public inputs (`BurnMintPublicInputs`, `burn_mint_air.rs` lines 21-52) -/

/-- Public inputs bound to a burn/mint proof. -/
structure BurnMintPublicInputs where
  burn_amount : BaseElement
  mint_amount : BaseElement
  txn_hash : BaseElement
  recipient_hash : BaseElement
  state : BaseElement
  tx_prefix_hash_0 : BaseElement
  tx_prefix_hash_1 : BaseElement
  tx_prefix_hash_2 : BaseElement
  tx_prefix_hash_3 : BaseElement
  network_id : BaseElement
  target_chain_id : BaseElement
  commitment_version : BaseElement
  deriving DecidableEq

/-! ## The AIR (`XfgBurnMintAir`, `burn_mint_air.rs`) -/

/-- The burn/mint AIR: public inputs plus the in-circuit secret.
`TraceInfo` is fixed at width 7, length 64 and `ProofOptions` are the fixed
protocol constants, so neither is carried here. -/
structure XfgBurnMintAir where
  public_inputs : BurnMintPublicInputs
  secret : BaseElement

/-- Constructor `XfgBurnMintAir::new_with_secret` (lines 272-298): stores the
prover-supplied secret. -/
def XfgBurnMintAir.new_with_secret (pi : BurnMintPublicInputs) (secret : BaseElement) :
    XfgBurnMintAir :=
  ⟨pi, secret⟩

/-- Trait constructor `<XfgBurnMintAir as Air>::new` (lines 304-329), the one
Winterfell's verifier invokes: it ignores any caller secret and hard-codes
`BaseElement::from(67305985u32)` (the conversion of the test secret
`[1,2,3,4,5,6,7,8]`). -/
def XfgBurnMintAir.airNew (pi : BurnMintPublicInputs) : XfgBurnMintAir :=
  ⟨pi, fromU32 67305985⟩

/-- `XfgBurnMintAir::compute_nullifier` (lines 124-133):
`keccak256(le_bytes(secret) ‖ "nullifier" ‖ le_bytes(burn_amount))`,
first 4 digest bytes as little-endian `u32`, embedded into the field. -/
def XfgBurnMintAir.compute_nullifier (air : XfgBurnMintAir) (secret : BaseElement) :
    BaseElement :=
  fromU32 (first4LE (keccak256
    (le64 secret.val ++ nullifierTag ++ le64 air.public_inputs.burn_amount.val)))

/-- `XfgBurnMintAir::compute_recipient_hash` (lines 157-170): the 32-byte
digest `keccak256(le_bytes(PI.recipient_hash) ‖ "ethereum-recipient" ‖
"fuego-to-heat-bridge")`.  Note that the pre-image is the 8-byte encoding of
the truncated `recipient_hash` public input, not the 20-byte address. -/
def XfgBurnMintAir.compute_recipient_hash (air : XfgBurnMintAir) : List Nat :=
  keccak256
    (le64 air.public_inputs.recipient_hash.val ++ ethereumRecipientTag ++ fuegoBridgeTag)

/-- `XfgBurnMintAir::compute_commitment` (lines 174-202). -/
def XfgBurnMintAir.compute_commitment (air : XfgBurnMintAir) (secret : BaseElement) :
    BaseElement :=
  fromU32 (first4LE (keccak256
    (le64 secret.val ++
     le64 air.public_inputs.burn_amount.val ++
     le64 air.public_inputs.mint_amount.val ++
     le64 air.public_inputs.tx_prefix_hash_0.val ++
     le64 air.public_inputs.tx_prefix_hash_1.val ++
     le64 air.public_inputs.tx_prefix_hash_2.val ++
     le64 air.public_inputs.tx_prefix_hash_3.val ++
     air.compute_recipient_hash ++
     le64 air.public_inputs.network_id.val ++
     le64 air.public_inputs.target_chain_id.val ++
     le64 air.public_inputs.commitment_version.val ++
     heatCommitmentTag)))

/-- `XfgBurnMintAir::validate_burn_amount` (lines 205-220):
`(burn - 8_000_000) * (burn - 8_000_000 * 1000)`. -/
def XfgBurnMintAir.validate_burn_amount (burn : BaseElement) : BaseElement :=
  (burn - fromU32 8000000) * (burn - fromU32 8000000 * fromU32 1000)

/-- `XfgBurnMintAir::validate_state_transitions` (lines 235-251):
`(next - current) * (next - current - 1)`. -/
def XfgBurnMintAir.validate_state_transitions (current next : BaseElement) : BaseElement :=
  (next - current) * (next - current - felt 1)

/-- State value written at a trace step by `build_trace` (lines 455-464):
0 for steps 0-15, then 1, 2, 3 in blocks of 16. -/
def stateAt (step : Nat) : Nat :=
  if step < 16 then 0 else if step < 32 then 1 else if step < 48 then 2 else 3

/-- `XfgBurnMintAir::build_trace` (lines 442-477): seven columns of 64 rows;
registers 0-3 copy the public inputs, register 4 walks the state schedule,
registers 5 and 6 hold the nullifier and commitment computed once. -/
def XfgBurnMintAir.build_trace (air : XfgBurnMintAir) : List (List BaseElement) :=
  let nullifier := air.compute_nullifier air.secret
  let commitment := air.compute_commitment air.secret
  [ (List.range 64).map (fun _ => air.public_inputs.burn_amount),
    (List.range 64).map (fun _ => air.public_inputs.mint_amount),
    (List.range 64).map (fun _ => air.public_inputs.txn_hash),
    (List.range 64).map (fun _ => air.public_inputs.recipient_hash),
    (List.range 64).map (fun step => fromU32 (stateAt step)),
    (List.range 64).map (fun _ => nullifier),
    (List.range 64).map (fun _ => commitment) ]

/-- Register value of a column-major trace at (register, row); out-of-range
reads default to zero. -/
def traceGet (tr : List (List BaseElement)) (reg row : Nat) : BaseElement :=
  (tr.getD reg []).getD row (felt 0)

/-- A Winterfell single-value boundary assertion. -/
structure TraceAssertion where
  register : Nat
  step : Nat
  value : BaseElement

/-- `XfgBurnMintAir::get_assertions` (lines 380-395). -/
def XfgBurnMintAir.get_assertions (air : XfgBurnMintAir) : List TraceAssertion :=
  [ ⟨0, 0, air.public_inputs.burn_amount⟩,
    ⟨1, 0, air.public_inputs.mint_amount⟩,
    ⟨2, 0, air.public_inputs.txn_hash⟩,
    ⟨3, 0, air.public_inputs.recipient_hash⟩,
    ⟨4, 0, fromU32 0⟩,
    ⟨5, 0, air.compute_nullifier air.secret⟩,
    ⟨6, 0, air.compute_commitment air.secret⟩,
    ⟨4, 63, fromU32 3⟩ ]

/-- `XfgBurnMintAir::evaluate_transition` (lines 335-378): the seven
transition constraint values on one frame. -/
def XfgBurnMintAir.evaluate_transition (air : XfgBurnMintAir)
    (current next : Nat → BaseElement) : List BaseElement :=
  [ XfgBurnMintAir.validate_burn_amount (current 0),
    current 1 - current 0,
    current 2 - fromU32 air.public_inputs.txn_hash.val,
    current 3 - fromU32 air.public_inputs.recipient_hash.val,
    XfgBurnMintAir.validate_state_transitions (current 4) (next 4),
    current 5 - air.compute_nullifier air.secret,
    current 6 - air.compute_commitment air.secret ]

/-- Modelled from the spec: the generic STARK engine (Winterfell, an external
library that the specification treats as a black box) accepts a proof exactly
when every boundary assertion of the reconstructed AIR holds on the committed
trace and every transition constraint vanishes on every adjacent row pair
("any transition constraint violation or boundary mismatch makes the STARK
engine reject at verification; no partial/soft-fail"). -/
def starkAccepts (air : XfgBurnMintAir) (tr : List (List BaseElement)) : Bool :=
  (air.get_assertions.all (fun a => traceGet tr a.register a.step == a.value)) &&
  ((List.range 63).all (fun i =>
    (air.evaluate_transition (fun r => traceGet tr r i) (fun r => traceGet tr r (i + 1))).all
      (fun v => v.val == 0)))

/-! ## Prover (`XfgBurnMintProver`, `burn_mint_prover.rs`) -/

/-- `XfgBurnMintProver::compute_recipient_hash` (lines 229-239):
`keccak256(addr ‖ "recipient")`, first 4 bytes as little-endian `u32`. -/
def proverComputeRecipientHash (addr : List Nat) : Nat :=
  first4LE (keccak256 (addr ++ recipientTag))

/-- `XfgBurnMintProver::secret_to_field_element` (lines 213-226).  The Rust
body rejects secrets shorter than 4 bytes, then runs
`bytes.copy_from_slice(&secret[..8])`: for a secret of length 4-7 the slice
`secret[..8]` is out of range and the call panics at runtime; otherwise the
result is the little-endian `u32` of bytes 0-3 lifted into the field. -/
def secretToFieldElement (secret : List Nat) : RustOutcome BaseElement :=
  if secret.length < 4 then .err (.CryptoError "Secret must be at least 4 bytes")
  else if secret.length < 8 then .panicked
  else .ok (fromU32 (u32le secret 0))

/-- `XfgBurnMintProver::validate_inputs` (lines 133-198). -/
def proverValidateInputs (burn mint txn : Nat) (recipient : List Nat) (version : Nat) :
    Except XfgStarkError Unit := do
  if version = 1 then
    if burn ≠ 8000000 ∧ burn ≠ 8000000000 then
      throw (.CryptoError "Version 1: Burn amount must be exactly 0.8 XFG or 800 XFG")
    if mint ≠ burn then
      throw (.CryptoError
        ("Mint amount " ++ toString mint ++ " doesn't match expected " ++ toString burn))
  else if version = 2 then
    if burn ≠ 8000000 ∧ burn ≠ 800000000 ∧ burn ≠ 8000000000 then
      throw (.CryptoError "Version 2: Burn amount must be exactly 0.8 XFG, 80 XFG, or 800 XFG")
    if mint ≠ burn then
      throw (.CryptoError
        ("Mint amount " ++ toString mint ++ " doesn't match expected " ++ toString burn))
  else
    throw (.CryptoError ("Unsupported commitment version: " ++ toString version))
  if txn = 0 then
    throw (.CryptoError "Transaction hash must be greater than 0")
  if recipient.length ≠ 20 then
    throw (.CryptoError "Recipient address must be exactly 20 bytes")

/-- Public inputs assembled by `prove_burn_mint` (lines 83-107): amounts and
the legacy hash truncated via `as u32`, the recipient hash recomputed from
the address, and four 32-bit little-endian limbs drawn from bytes 0-15 of the
tx prefix hash. -/
def proverPublicInputs (burn mint : Nat) (txp recipient : List Nat)
    (network target version : Nat) : BurnMintPublicInputs where
  burn_amount := fromU32 burn
  mint_amount := fromU32 mint
  txn_hash := fromU32 (laneOfBytes (txp.take 8))
  recipient_hash := fromU32 (proverComputeRecipientHash recipient)
  state := fromU32 0
  tx_prefix_hash_0 := fromU32 (u32le txp 0)
  tx_prefix_hash_1 := fromU32 (u32le txp 4)
  tx_prefix_hash_2 := fromU32 (u32le txp 8)
  tx_prefix_hash_3 := fromU32 (u32le txp 12)
  network_id := fromU32 network
  target_chain_id := fromU32 target
  commitment_version := fromU32 version

/-- `XfgBurnMintProver::prove_burn_mint` (lines 62-129).  The opaque proof
blob is modelled by what it commits to: the public inputs the prover bound
and the execution trace built from `XfgBurnMintAir::new_with_secret`. -/
def proveBurnMint (burn mint : Nat) (txp recipient secret : List Nat)
    (network target version : Nat) :
    RustOutcome (BurnMintPublicInputs × List (List BaseElement)) :=
  match proverValidateInputs burn mint (laneOfBytes (txp.take 8)) recipient version with
  | .error e => .err e
  | .ok _ =>
    match secretToFieldElement secret with
    | .err e => .err e
    | .panicked => .panicked
    | .ok secretElement =>
      let pi := proverPublicInputs burn mint txp recipient network target version
      let air := XfgBurnMintAir.new_with_secret pi secretElement
      .ok (pi, air.build_trace)

/-! ## Verifier (`XfgBurnMintVerifier`, `burn_mint_verifier.rs`) -/

/-- `XfgBurnMintVerifier::compute_recipient_hash` (lines 311-321); the same
derivation as the prover's. -/
def verifierComputeRecipientHash (addr : List Nat) : Nat :=
  first4LE (keccak256 (addr ++ recipientTag))

/-- `XfgBurnMintVerifier::validate_inputs` (lines 189-259). -/
def verifierValidateInputs (burn mint txn : Nat) (recipient : List Nat) (version : Nat) :
    Except XfgStarkError Unit := do
  if version = 1 then
    if burn ≠ 8000000 ∧ burn ≠ 8000000000 then
      throw (.CryptoError "Version 1: Burn amount must be exactly 0.8 XFG or 800 XFG")
    if mint ≠ burn then
      throw (.CryptoError "Mint amount must equal burn amount for 1:1 conversion")
  else if version = 2 then
    if burn ≠ 8000000 ∧ burn ≠ 800000000 ∧ burn ≠ 8000000000 then
      throw (.CryptoError "Version 2: Burn amount must be exactly 0.8 XFG, 80 XFG, or 800 XFG")
    if mint ≠ burn then
      throw (.CryptoError "Mint amount must equal burn amount for 1:1 conversion")
  else
    throw (.CryptoError ("Unsupported commitment version: " ++ toString version))
  if mint = 0 then
    throw (.CryptoError "Mint amount must be greater than 0")
  if txn = 0 then
    throw (.CryptoError "Transaction hash must be greater than 0")
  if recipient.length ≠ 20 then
    throw (.CryptoError "Recipient address must be exactly 20 bytes")

/-- Public inputs assembled by `verify_burn_mint` (lines 139-156): the
recipient hash is recomputed from the address and all four tx-prefix-hash
limbs are set to zero (the source comment reads "placeholder for now"). -/
def verifierPublicInputs (burn mint txn : Nat) (recipient : List Nat)
    (network target version : Nat) : BurnMintPublicInputs where
  burn_amount := fromU32 burn
  mint_amount := fromU32 mint
  txn_hash := fromU32 txn
  recipient_hash := fromU32 (verifierComputeRecipientHash recipient)
  state := fromU32 0
  tx_prefix_hash_0 := fromU32 0
  tx_prefix_hash_1 := fromU32 0
  tx_prefix_hash_2 := fromU32 0
  tx_prefix_hash_3 := fromU32 0
  network_id := fromU32 network
  target_chain_id := fromU32 target
  commitment_version := fromU32 version

/-- `XfgBurnMintVerifier::verify_burn_mint` (lines 121-166): validate the
inputs, rebuild the public inputs, and hand the proof to the engine's
verifier, which reconstructs the AIR through the trait constructor
`<XfgBurnMintAir as Air>::new`.  Engine acceptance maps to `Ok(true)`,
rejection to `Ok(false)`. -/
def verifyBurnMint (proofTrace : List (List BaseElement)) (burn mint txn : Nat)
    (recipient : List Nat) (network target version : Nat) :
    Except XfgStarkError Bool :=
  match verifierValidateInputs burn mint txn recipient version with
  | .error e => .error e
  | .ok _ =>
    let pi := verifierPublicInputs burn mint txn recipient network target version
    .ok (starkAccepts (XfgBurnMintAir.airNew pi) proofTrace)

/-- Round trip of the specification's property 8.1: prove, then verify the
produced proof against the same public values (the legacy transaction hash
the verifier receives is the little-endian `u64` of the first 8 bytes of the
tx prefix hash, exactly what `prove_burn_mint` itself derives). -/
def roundTrip (burn mint : Nat) (txp recipient secret : List Nat)
    (network target version : Nat) : RustOutcome Bool :=
  match proveBurnMint burn mint txp recipient secret network target version with
  | .ok pt =>
    match verifyBurnMint pt.2 burn mint (laneOfBytes (txp.take 8)) recipient
        network target version with
    | .ok b => .ok b
    | .error e => .err e
  | .err e => .err e
  | .panicked => .panicked

/-! ## Definitions following the specification's words, for refinement
comparisons against the source embeddings above -/

/-- Stated from the spec (§4.1): `nullifier(s, amount) =
keccak256(le_bytes(s) ‖ "nullifier" ‖ le_bytes(amount))`, first 4 digest
bytes as a little-endian `u32`. -/
def specNullifier (s amount : Nat) : Nat :=
  first4LE (keccak256 (le64 s ++ nullifierTag ++ le64 amount))

/-- Stated from the spec (§4.1): `recipient_hash_full(addr) =
keccak256(addr ‖ "ethereum-recipient" ‖ "fuego-to-heat-bridge")`, truncated
to the first 4 bytes as a little-endian `u32`. -/
def specRecipientHashTruncated (addr : List Nat) : Nat :=
  first4LE (keccak256 (addr ++ ethereumRecipientTag ++ fuegoBridgeTag))

end XfgStark

namespace XfgStark

/-! Sanity anchors for the Keccak-256 model. The second digest is the value
asserted by the repository's own test `test_network_id_hashing` in
`src/lib.rs`. -/

set_option maxRecDepth 100000 in
theorem keccak256_empty_vector : keccak256 [] =
    [0xc5, 0xd2, 0x46, 0x01, 0x86, 0xf7, 0x23, 0x3c,
     0x92, 0x7e, 0x7d, 0xb2, 0xdc, 0xc7, 0x03, 0xc0,
     0xe5, 0x00, 0xb6, 0x53, 0xca, 0x82, 0x27, 0x3b,
     0x7b, 0xfa, 0xd8, 0x04, 0x5d, 0x85, 0xa4, 0x70] := by decide

set_option maxRecDepth 100000 in
theorem keccak256_repo_test_vector : keccak256
    [57, 51, 51, 56, 53, 48, 52, 54, 52, 52, 48, 55, 53, 53, 55, 53, 48, 53, 49,
     52, 49, 57, 52, 49, 55, 48, 54, 57, 52, 48, 54, 52, 57, 57, 54, 54, 50, 52] =
    [0x64, 0x30, 0x82, 0x9b, 0xe7, 0x4c, 0x2d, 0x98, 0x92, 0xa5, 0x12, 0x2a,
     0xa2, 0xf2, 0xda, 0xac, 0x3e, 0xe9, 0x85, 0x0f, 0x08, 0x6a, 0x89, 0x85,
     0x94, 0x1e, 0x7f, 0xb4, 0xbd, 0xe6, 0x0f, 0xcf] := by decide

end XfgStark

namespace XfgStark

/-! ## Helper lemmas -/

theorem getD_map_range {β : Type} (f : Nat → β) (d : β) {i n : Nat} (h : i < n) :
    ((List.range n).map f).getD i d = f i := by
  simp [List.getD_eq_getElem?_getD, List.getElem?_map, List.getElem?_range, h]

theorem getD_eq_of_take_eq {l1 l2 : List Nat} {n : Nat} (h : l1.take n = l2.take n)
    {i : Nat} (hi : i < n) (d : Nat) : l1.getD i d = l2.getD i d := by
  have h1 : (l1.take n)[i]? = (l2.take n)[i]? := by rw [h]
  simpa [List.getElem?_take, hi, List.getD_eq_getElem?_getD] using
    congrArg (fun o => o.getD d) h1

theorem u32le_eq_of_take_eq {l1 l2 : List Nat} {n off : Nat} (h : l1.take n = l2.take n)
    (hoff : off + 3 < n) : u32le l1 off = u32le l2 off := by
  unfold u32le
  rw [getD_eq_of_take_eq h (by omega) 0, getD_eq_of_take_eq h (by omega) 0,
    getD_eq_of_take_eq h (by omega) 0, getD_eq_of_take_eq h (by omega) 0]

theorem proverValidateInputs_ok_iff (burn mint txn : Nat) (recipient : List Nat)
    (version : Nat) :
    proverValidateInputs burn mint txn recipient version = .ok () ↔
      (((version = 1 ∧ (burn = 8000000 ∨ burn = 8000000000)) ∨
        (version = 2 ∧ (burn = 8000000 ∨ burn = 800000000 ∨ burn = 8000000000))) ∧
       mint = burn ∧ txn ≠ 0 ∧ recipient.length = 20) := by
  unfold proverValidateInputs
  split_ifs <;>
    simp_all [bind, Except.bind, pure, Except.pure, throw, throwThe, MonadExceptOf.throw] <;>
    omega

theorem verifierValidateInputs_ok_iff (burn mint txn : Nat) (recipient : List Nat)
    (version : Nat) :
    verifierValidateInputs burn mint txn recipient version = .ok () ↔
      (((version = 1 ∧ (burn = 8000000 ∨ burn = 8000000000)) ∨
        (version = 2 ∧ (burn = 8000000 ∨ burn = 800000000 ∨ burn = 8000000000))) ∧
       mint = burn ∧ txn ≠ 0 ∧ recipient.length = 20) := by
  unfold verifierValidateInputs
  split_ifs <;>
    simp_all [bind, Except.bind, pure, Except.pure, throw, throwThe, MonadExceptOf.throw] <;>
    omega

theorem proverValidateInputs_error_variant (burn mint txn : Nat) (recipient : List Nat)
    (version : Nat) (e : XfgStarkError)
    (h : proverValidateInputs burn mint txn recipient version = .error e) :
    e.variantTag = 10 := by
  unfold proverValidateInputs at h
  split_ifs at h <;>
    simp_all [bind, Except.bind, pure, Except.pure, throw, throwThe, MonadExceptOf.throw] <;>
    (subst h; rfl)

theorem verifierValidateInputs_error_variant (burn mint txn : Nat) (recipient : List Nat)
    (version : Nat) (e : XfgStarkError)
    (h : verifierValidateInputs burn mint txn recipient version = .error e) :
    e.variantTag = 10 := by
  unfold verifierValidateInputs at h
  split_ifs at h <;>
    simp_all [bind, Except.bind, pure, Except.pure, throw, throwThe, MonadExceptOf.throw] <;>
    (subst h; rfl)

theorem proverValidateInputs_unsupported_version (burn mint txn : Nat)
    (recipient : List Nat) (version : Nat) (h1 : version ≠ 1) (h2 : version ≠ 2) :
    proverValidateInputs burn mint txn recipient version =
      .error (.CryptoError ("Unsupported commitment version: " ++ toString version)) := by
  unfold proverValidateInputs
  simp [h1, h2, bind, Except.bind, throw, throwThe, MonadExceptOf.throw]

theorem verifierValidateInputs_unsupported_version (burn mint txn : Nat)
    (recipient : List Nat) (version : Nat) (h1 : version ≠ 1) (h2 : version ≠ 2) :
    verifierValidateInputs burn mint txn recipient version =
      .error (.CryptoError ("Unsupported commitment version: " ++ toString version)) := by
  unfold verifierValidateInputs
  simp [h1, h2, bind, Except.bind, throw, throwThe, MonadExceptOf.throw]

end XfgStark

namespace XfgStark

/-! ## Claim theorems -/

/-- C4: for every secret field element `s` and burn amount, the in-circuit
nullifier equals the first 4 bytes (little-endian `u32`, lifted into `F`) of
`keccak256(le_bytes(s) ‖ "nullifier" ‖ le_bytes(burn_amount))`. -/
theorem air_nullifier_matches_spec_formula (air : XfgBurnMintAir) (s : BaseElement) :
    air.compute_nullifier s =
      fromU32 (specNullifier s.val air.public_inputs.burn_amount.val) := rfl

set_option maxRecDepth 1000000 in
/-- C3 counterexample: at the 20-byte address `0x12...12`, the recipient hash
the prover actually computes differs from the specification's formula
`keccak256(addr ‖ "ethereum-recipient" ‖ "fuego-to-heat-bridge")` truncated
to its first 4 bytes: the source uses the single domain tag `"recipient"`. -/
theorem recipient_hash_spec_mismatch_at_addr12 :
    proverComputeRecipientHash (List.replicate 20 0x12) ≠
      specRecipientHashTruncated (List.replicate 20 0x12) := by decide

/-- C3 (amended): for every recipient address, the recipient hash bound to
the proof equals the first 4 bytes (little-endian `u32`, lifted into `F`) of
`keccak256(addr ‖ "recipient")`; prover and verifier both derive it this way
from the address itself. -/
theorem recipient_hash_single_recipient_tag (addr : List Nat) (burn mint txn : Nat)
    (txp : List Nat) (network target version : Nat) :
    proverComputeRecipientHash addr = first4LE (keccak256 (addr ++ recipientTag)) ∧
    verifierComputeRecipientHash addr = proverComputeRecipientHash addr ∧
    (proverPublicInputs burn mint txp addr network target version).recipient_hash =
      fromU32 (proverComputeRecipientHash addr) ∧
    (verifierPublicInputs burn mint txn addr network target version).recipient_hash =
      fromU32 (verifierComputeRecipientHash addr) :=
  ⟨rfl, rfl, rfl, rfl⟩

set_option maxRecDepth 1000000 in
/-- C2 counterexample: two 32-byte tx prefix hashes that differ exactly at
byte 16 produce identical prover public inputs, so the four limbs are not
64-bit limbs covering all 32 bytes and byte 16 does not influence them. -/
theorem tx_prefix_limbs_ignore_byte_16 :
    proverPublicInputs 8000000 8000000 (1 :: List.replicate 31 0)
        (List.replicate 20 0x12) 4 42161 1 =
      proverPublicInputs 8000000 8000000
        (1 :: (List.replicate 15 0 ++ 7 :: List.replicate 15 0))
        (List.replicate 20 0x12) 4 42161 1 ∧
    (1 :: List.replicate 31 0 : List Nat) ≠
      1 :: (List.replicate 15 0 ++ 7 :: List.replicate 15 0) := by
  constructor
  · decide
  · decide

/-- C2 (amended): the prover reads four little-endian 32-bit limbs from bytes
0-15 of the tx prefix hash (offsets 0, 4, 8, 12) into
`tx_prefix_hash_0..3`; only the first 16 bytes influence the limbs. -/
theorem tx_prefix_limbs_32bit_first16 (burn mint : Nat) (txp txp2 recipient : List Nat)
    (network target version : Nat) (h : txp.take 16 = txp2.take 16) :
    ((proverPublicInputs burn mint txp recipient network target version).tx_prefix_hash_0 =
        fromU32 (u32le txp 0) ∧
     (proverPublicInputs burn mint txp recipient network target version).tx_prefix_hash_1 =
        fromU32 (u32le txp 4) ∧
     (proverPublicInputs burn mint txp recipient network target version).tx_prefix_hash_2 =
        fromU32 (u32le txp 8) ∧
     (proverPublicInputs burn mint txp recipient network target version).tx_prefix_hash_3 =
        fromU32 (u32le txp 12)) ∧
    ((proverPublicInputs burn mint txp recipient network target version).tx_prefix_hash_0 =
        (proverPublicInputs burn mint txp2 recipient network target version).tx_prefix_hash_0 ∧
     (proverPublicInputs burn mint txp recipient network target version).tx_prefix_hash_1 =
        (proverPublicInputs burn mint txp2 recipient network target version).tx_prefix_hash_1 ∧
     (proverPublicInputs burn mint txp recipient network target version).tx_prefix_hash_2 =
        (proverPublicInputs burn mint txp2 recipient network target version).tx_prefix_hash_2 ∧
     (proverPublicInputs burn mint txp recipient network target version).tx_prefix_hash_3 =
        (proverPublicInputs burn mint txp2 recipient network target version).tx_prefix_hash_3) := by
  refine ⟨⟨rfl, rfl, rfl, rfl⟩, ?_, ?_, ?_, ?_⟩ <;>
    simp only [proverPublicInputs] <;>
    rw [u32le_eq_of_take_eq h (by omega)]

/-- Witness for the amended C2 theorem at two concrete prefixes agreeing on
their first 16 bytes. -/
theorem tx_prefix_limbs_32bit_first16_witness :
    (List.replicate 32 3 : List Nat).take 16 =
      (List.replicate 16 3 ++ List.replicate 16 9 : List Nat).take 16 ∧
    (proverPublicInputs 8000000 8000000 (List.replicate 32 3)
        (List.replicate 20 0x12) 4 42161 1).tx_prefix_hash_0 =
      (proverPublicInputs 8000000 8000000 (List.replicate 16 3 ++ List.replicate 16 9)
        (List.replicate 20 0x12) 4 42161 1).tx_prefix_hash_0 :=
  ⟨by decide,
   ((tx_prefix_limbs_32bit_first16 8000000 8000000 (List.replicate 32 3)
      (List.replicate 16 3 ++ List.replicate 16 9) (List.replicate 20 0x12)
      4 42161 1 (by decide)).2).1⟩

set_option maxRecDepth 1000000 in
/-- C6: the prover does not return an input-validation error on a 7-byte
secret; `secret_to_field_element` passes its own `len < 4` check and then
panics on the out-of-range slice `secret[..8]`, so `prove_burn_mint` aborts
with a runtime panic. -/
theorem prover_panics_on_seven_byte_secret :
    proveBurnMint 8000000 8000000 (1 :: List.replicate 31 0) (List.replicate 20 0x12)
      [1, 2, 3, 4, 5, 6, 7] 4 42161 1 = .panicked := by decide

end XfgStark

namespace XfgStark

/-- C8: every trace produced by `build_trace` has width 7 and 64 rows;
registers 0, 1, 2, 3, 5, 6 are constant across all rows, and register 4
holds row / 16, i.e. 0 on rows 0-15, 1 on rows 16-31, 2 on rows 32-47 and
3 on rows 48-63. -/
theorem build_trace_shape (air : XfgBurnMintAir) (i : Fin 64) :
    air.build_trace.length = 7 ∧
    (∀ col ∈ air.build_trace, col.length = 64) ∧
    traceGet air.build_trace 0 i = air.public_inputs.burn_amount ∧
    traceGet air.build_trace 1 i = air.public_inputs.mint_amount ∧
    traceGet air.build_trace 2 i = air.public_inputs.txn_hash ∧
    traceGet air.build_trace 3 i = air.public_inputs.recipient_hash ∧
    traceGet air.build_trace 5 i = air.compute_nullifier air.secret ∧
    traceGet air.build_trace 6 i = air.compute_commitment air.secret ∧
    (traceGet air.build_trace 4 i).val = i.val / 16 := by
  have hi := i.isLt
  refine ⟨rfl, ?_, ?_, ?_, ?_, ?_, ?_, ?_, ?_⟩
  · intro col hcol
    simp only [XfgBurnMintAir.build_trace, List.mem_cons, List.not_mem_nil, or_false] at hcol
    rcases hcol with h | h | h | h | h | h | h <;> subst h <;> simp
  · exact getD_map_range _ _ hi
  · exact getD_map_range _ _ hi
  · exact getD_map_range _ _ hi
  · exact getD_map_range _ _ hi
  · exact getD_map_range _ _ hi
  · exact getD_map_range _ _ hi
  · have h4 : traceGet air.build_trace 4 i = fromU32 (stateAt i.val) :=
      getD_map_range _ _ hi
    rw [h4]
    unfold stateAt
    split_ifs with a b c
    · rw [show i.val / 16 = 0 by omega]; decide
    · rw [show i.val / 16 = 1 by omega]; decide
    · rw [show i.val / 16 = 2 by omega]; decide
    · rw [show i.val / 16 = 3 by omega]; decide

/-- C9: only the first 4 bytes of the secret matter: two secrets of length
at least 8 that agree on bytes 0-3 give the same field secret, and
`prove_burn_mint` produces identical public inputs and trace (hence identical
nullifier and commitment) for them. -/
theorem secret_first_four_bytes_determine_prover_output (s1 s2 : List Nat)
    (h1 : 8 ≤ s1.length) (h2 : 8 ≤ s2.length) (h4 : s1.take 4 = s2.take 4) :
    secretToFieldElement s1 = secretToFieldElement s2 ∧
    ∀ (burn mint network target version : Nat) (txp recipient : List Nat),
      proveBurnMint burn mint txp recipient s1 network target version =
        proveBurnMint burn mint txp recipient s2 network target version := by
  have hu : u32le s1 0 = u32le s2 0 := u32le_eq_of_take_eq h4 (by omega)
  have a1 : ¬ s1.length < 4 := by omega
  have a2 : ¬ s1.length < 8 := by omega
  have a3 : ¬ s2.length < 4 := by omega
  have a4 : ¬ s2.length < 8 := by omega
  have hs : secretToFieldElement s1 = secretToFieldElement s2 := by
    simp [secretToFieldElement, a1, a2, a3, a4, hu]
  refine ⟨hs, ?_⟩
  intro burn mint network target version txp recipient
  unfold proveBurnMint
  rw [hs]

/-- Witness for C9 at two concrete 8-byte secrets agreeing on bytes 0-3. -/
theorem secret_first_four_bytes_witness :
    8 ≤ ([1, 2, 3, 4, 5, 6, 7, 8] : List Nat).length ∧
    8 ≤ ([1, 2, 3, 4, 9, 9, 9, 9] : List Nat).length ∧
    ([1, 2, 3, 4, 5, 6, 7, 8] : List Nat).take 4 = ([1, 2, 3, 4, 9, 9, 9, 9] : List Nat).take 4 ∧
    secretToFieldElement [1, 2, 3, 4, 5, 6, 7, 8] = secretToFieldElement [1, 2, 3, 4, 9, 9, 9, 9] :=
  ⟨by decide, by decide, by decide,
   (secret_first_four_bytes_determine_prover_output [1, 2, 3, 4, 5, 6, 7, 8]
      [1, 2, 3, 4, 9, 9, 9, 9] (by decide) (by decide) (by decide)).1⟩

/-- C10: amounts enter the public inputs truncated modulo 2^32 (`as u32`) in
both prover and verifier, so amounts congruent modulo 2^32 give the same
public-input element, and the large tier 8000000000 enters as 3705032704. -/
theorem amounts_truncate_mod_two_pow_32 (a b mint txn : Nat) (txp recipient : List Nat)
    (network target version : Nat) (h : a % 2 ^ 32 = b % 2 ^ 32) :
    ((proverPublicInputs a mint txp recipient network target version).burn_amount =
       (proverPublicInputs b mint txp recipient network target version).burn_amount) ∧
    ((proverPublicInputs mint a txp recipient network target version).mint_amount =
       (proverPublicInputs mint b txp recipient network target version).mint_amount) ∧
    ((verifierPublicInputs a mint txn recipient network target version).burn_amount =
       (verifierPublicInputs b mint txn recipient network target version).burn_amount) ∧
    ((verifierPublicInputs mint a txn recipient network target version).mint_amount =
       (verifierPublicInputs mint b txn recipient network target version).mint_amount) ∧
    (proverPublicInputs 8000000000 mint txp recipient network target version).burn_amount =
      felt 3705032704 ∧
    (verifierPublicInputs 8000000000 mint txn recipient network target version).burn_amount =
      felt 3705032704 := by
  refine ⟨?_, ?_, ?_, ?_, ?_, ?_⟩ <;>
    simp only [proverPublicInputs, verifierPublicInputs] <;>
    first
      | (unfold fromU32; rw [h])
      | decide

/-- Witness for C10 at the congruent pair 2^32 + 5 and 5. -/
theorem amounts_truncate_witness :
    (2 ^ 32 + 5) % 2 ^ 32 = 5 % 2 ^ 32 ∧
    (proverPublicInputs (2 ^ 32 + 5) 0 [] [] 4 42161 1).burn_amount =
      (proverPublicInputs 5 0 [] [] 4 42161 1).burn_amount :=
  ⟨by decide,
   (amounts_truncate_mod_two_pow_32 (2 ^ 32 + 5) 5 0 0 [] [] 4 42161 1 (by decide)).1⟩

end XfgStark

namespace XfgStark

/-- C5: with the other inputs valid, input validation in both prover and
verifier accepts a burn amount under version 1 iff it is 8000000 or
8000000000, and under version 2 iff it is 8000000, 800000000 or 8000000000;
any other commitment version yields the unsupported-version error in both
validators and makes `prove_burn_mint` fail before any proof work. -/
theorem tier_enumeration (burn version : Nat) :
    ((proverValidateInputs burn burn 1 (List.replicate 20 0x12) version = .ok ()) ↔
       ((version = 1 ∧ (burn = 8000000 ∨ burn = 8000000000)) ∨
        (version = 2 ∧ (burn = 8000000 ∨ burn = 800000000 ∨ burn = 8000000000)))) ∧
    ((verifierValidateInputs burn burn 1 (List.replicate 20 0x12) version = .ok ()) ↔
       ((version = 1 ∧ (burn = 8000000 ∨ burn = 8000000000)) ∨
        (version = 2 ∧ (burn = 8000000 ∨ burn = 800000000 ∨ burn = 8000000000)))) ∧
    (version ≠ 1 → version ≠ 2 →
      ∀ (mint txn network target : Nat) (recipient secret txp : List Nat),
        proverValidateInputs burn mint txn recipient version =
          .error (.CryptoError ("Unsupported commitment version: " ++ toString version)) ∧
        verifierValidateInputs burn mint txn recipient version =
          .error (.CryptoError ("Unsupported commitment version: " ++ toString version)) ∧
        proveBurnMint burn mint txp recipient secret network target version =
          .err (.CryptoError ("Unsupported commitment version: " ++ toString version))) := by
  refine ⟨?_, ?_, ?_⟩
  · rw [proverValidateInputs_ok_iff]
    simp
  · rw [verifierValidateInputs_ok_iff]
    simp
  · intro hv1 hv2 mint txn network target recipient secret txp
    refine ⟨proverValidateInputs_unsupported_version _ _ _ _ _ hv1 hv2,
      verifierValidateInputs_unsupported_version _ _ _ _ _ hv1 hv2, ?_⟩
    unfold proveBurnMint
    rw [proverValidateInputs_unsupported_version _ _ _ _ _ hv1 hv2]

/-- Witness for C5 at burn 8000000 and the unsupported version 3. -/
theorem tier_enumeration_witness :
    (3 ≠ 1) ∧ (3 ≠ 2) ∧
    proverValidateInputs 8000000 8000000 5 (List.replicate 20 1) 3 =
      .error (.CryptoError ("Unsupported commitment version: " ++ toString 3)) :=
  ⟨by decide, by decide,
   ((tier_enumeration 8000000 3).2.2 (by decide) (by decide) 8000000 5 4 42161
      (List.replicate 20 1) [] []).1⟩

/-- C7: input-validation parity: for every input tuple the prover's
`validate_inputs` accepts iff the verifier's does, and whenever both reject
the two errors are the same variant of `XfgStarkError`. -/
theorem input_validation_parity (burn mint txn : Nat) (recipient : List Nat)
    (version : Nat) :
    ((proverValidateInputs burn mint txn recipient version = .ok ()) ↔
       (verifierValidateInputs burn mint txn recipient version = .ok ())) ∧
    (∀ e1 e2 : XfgStarkError,
      proverValidateInputs burn mint txn recipient version = .error e1 →
      verifierValidateInputs burn mint txn recipient version = .error e2 →
      e1.variantTag = e2.variantTag) := by
  constructor
  · rw [proverValidateInputs_ok_iff, verifierValidateInputs_ok_iff]
  · intro e1 e2 he1 he2
    rw [proverValidateInputs_error_variant _ _ _ _ _ _ he1,
      verifierValidateInputs_error_variant _ _ _ _ _ _ he2]

/-- Witness for C7 at a concretely rejected input (burn amount 5, version 1). -/
theorem input_validation_parity_witness :
    proverValidateInputs 5 5 1 (List.replicate 20 0x12) 1 =
      .error (.CryptoError "Version 1: Burn amount must be exactly 0.8 XFG or 800 XFG") ∧
    verifierValidateInputs 5 5 1 (List.replicate 20 0x12) 1 =
      .error (.CryptoError "Version 1: Burn amount must be exactly 0.8 XFG or 800 XFG") ∧
    XfgStarkError.variantTag
        (.CryptoError "Version 1: Burn amount must be exactly 0.8 XFG or 800 XFG") =
      XfgStarkError.variantTag
        (.CryptoError "Version 1: Burn amount must be exactly 0.8 XFG or 800 XFG") :=
  ⟨by rfl, by rfl,
   (input_validation_parity 5 5 1 (List.replicate 20 0x12) 1).2 _ _ (by rfl) (by rfl)⟩

set_option maxRecDepth 1000000 in
/-- C1: the prove-then-verify round trip fails on the specification's valid
scenario S1 (burn = mint = 8000000, recipient 0x12...12, tx prefix hash with
first byte 1, secret 0x2A...2A of 32 bytes, network 4, chain 42161,
version 1): `verify_burn_mint` zeroes the tx-prefix-hash limbs and the
engine reconstructs the AIR through `Air::new`, which hard-codes the secret
67305985, so the nullifier and commitment boundary assertions fail and the
verifier returns `Ok(false)` instead of the claimed `Ok(true)`. -/
theorem roundtrip_fails_on_valid_witness_S1 :
    roundTrip 8000000 8000000 (1 :: List.replicate 31 0) (List.replicate 20 0x12)
      (List.replicate 32 0x2A) 4 42161 1 = .ok false := by decide

end XfgStark
